import Mathlib

/-!
Shallow embedding of the Personal-financial-tracker user-management chain:
the Postgres-backed storage of UsersManager, the UsersManager domain
service, the UsersManager gRPC server, the API-Gateway gRPC client
storage, the API-Gateway domain service, and the API-Gateway HTTP
handlers.  Go errors are modelled as an inductive type with an explicit
wrapping constructor; each layer operation is a Lean function over the
inbound context state and the result of the layer below, returning its
result together with a flag recording whether the layer below was
invoked.
-/

/-- A parsed UUID, kept as its canonical lower-case hyphenated string. -/
structure Uuid where
  canon : String
deriving DecidableEq, Repr

/-- Hex-digit test used by the UUID format check (0-9, a-f, A-F). -/
def isHexDigit (c : Char) : Bool :=
  (decide (48 ≤ c.toNat) && decide (c.toNat ≤ 57)) ||
  (decide (97 ≤ c.toNat) && decide (c.toNat ≤ 102)) ||
  (decide (65 ≤ c.toNat) && decide (c.toNat ≤ 70))

/-- Canonical hyphenated UUID format: 36 characters, hyphens at
positions 8, 13, 18, 23, hex digits elsewhere. -/
def isUuidFormat (s : String) : Bool :=
  decide (s.length = 36) &&
  (List.range 36).all (fun i =>
    let c := s.data.getD i ' '
    if i = 8 ∨ i = 13 ∨ i = 18 ∨ i = 23 then decide (c = '-') else isHexDigit c)

/-- ASCII lower-casing of one character. -/
def charLower (c : Char) : Char :=
  if 65 ≤ c.toNat ∧ c.toNat ≤ 90 then Char.ofNat (c.toNat + 32) else c

/-- ASCII lower-casing of a string. -/
def strLower (s : String) : String := ⟨s.data.map charLower⟩

/-- Model of uuid.Parse: succeeds exactly on well-formed UUID strings,
normalising to lower case. -/
def uuidParse (s : String) : Option Uuid :=
  if isUuidFormat s then some ⟨strLower s⟩ else none

/-- Model of the zero value of uuid.UUID. -/
def zeroUuid : Uuid := ⟨"00000000-0000-0000-0000-000000000000"⟩

/-- The User domain entity (identical shape in both services). -/
structure User where
  id : Uuid
  login : String
  password : String
  role : String
deriving DecidableEq, Repr

/-- Model of the Go zero value models.User{}. -/
def zeroUser : User := ⟨zeroUuid, "", "", ""⟩

/-- Go errors flowing through the system: driver errors, context errors,
the sentinel values of each package, arbitrary foreign errors, and the
wrapping performed by fmt.Errorf with the w verb. -/
inductive GoError where
  | sqlNoRows
  | pqErr (code : String)
  | ctxCanceled
  | ctxDeadline
  | uuidInvalid
  | umStorNotFound
  | umStorAlreadyExists
  | umSvcNotFound
  | umSvcAlreadyExists
  | umSvcInvalidArgument
  | gwStorNotFound
  | gwStorAlreadyExists
  | gwStorInvalidArgument
  | gwStorDeadlineExeeced
  | gwStorContextCanceled
  | gwStorInternal
  | gwSvcNotFound
  | gwSvcAlreadyExists
  | gwSvcInvalidArgument
  | gwSvcDeadlineExeeced
  | gwSvcContextCanceled
  | gwSvcInternal
  | otherErr (tag : Nat)
  | wrap (op : String) (e : GoError)
deriving DecidableEq, Repr

deriving instance DecidableEq for Except

/-- The innermost error of a wrapping chain. -/
def GoError.base : GoError → GoError
  | .wrap _ e => GoError.base e
  | e => e

/-- Model of errors.Is for the targets used in this repository: every
target compared against is an unwrapped sentinel, so the check is
equality of the chain's innermost error with the target. -/
def errorsIs (e target : GoError) : Bool := decide (e.base = target)

/-- State of the inbound request context at the time an operation runs:
live, cancelled, or past its deadline. -/
inductive CtxState where
  | live
  | canceledCtx
  | deadlineCtx
deriving DecidableEq, Repr

/-- Model of the non-blocking select on ctx.Done(). -/
def CtxState.done : CtxState → Bool
  | .live => false
  | .canceledCtx => true
  | .deadlineCtx => true

/-- Model of ctx.Err(); only consulted on done contexts. -/
def CtxState.err : CtxState → GoError
  | .live => .ctxCanceled
  | .canceledCtx => .ctxCanceled
  | .deadlineCtx => .ctxDeadline

/-- Result of one Go operation returning a value and an error, plus an
instrumentation flag recording whether the layer below was invoked. -/
structure OpOut (α : Type) where
  val : α
  err : Option GoError
  called : Bool
deriving DecidableEq, Repr

/-- The users table: one row per User, id is the primary key. -/
abbrev Table := List User

/-- First row with the given id, if any. -/
def findById (t : Table) (uid : Uuid) : Option User :=
  t.find? (fun r => decide (r.id = uid))

/-- Semantics of the SELECT-by-id query row scan: sql.ErrNoRows when no
row matches. -/
def dbSelectById (t : Table) (uid : Uuid) : Except GoError User :=
  match findById t uid with
  | some r => .ok r
  | none => .error .sqlNoRows

/-- Semantics of the INSERT under the table's unique primary key on id:
a duplicate id violates the constraint with Postgres error code 23505. -/
def dbInsertExec (t : Table) (u : User) : Option GoError × Table :=
  if t.any (fun r => decide (r.id = u.id)) then (some (.pqErr "23505"), t)
  else (none, t ++ [u])

/-- Effect of the UPDATE statement on one row: rows whose id matches get
the new login, password and role; the id column is not in the SET list. -/
def applyUpdate (uid : Uuid) (u : User) (r : User) : User :=
  if r.id = uid then { r with login := u.login, password := u.password, role := u.role } else r

/-- Semantics of the UPDATE statement: number of affected rows and the
resulting table. -/
def dbUpdateExec (t : Table) (uid : Uuid) (u : User) : Nat × Table :=
  ((t.filter (fun r => decide (r.id = uid))).length, t.map (applyUpdate uid u))

/-- Semantics of the DELETE statement. -/
def dbDeleteExec (t : Table) (uid : Uuid) : Table :=
  t.filter (fun r => decide (¬ r.id = uid))

namespace Psql

def opGetUsers : String := "storage.user.psql.GetUsers"

def opGetUserById : String := "storage.user.psql.GetUserById"

def opInsert : String := "storage.user.psql.Insert"

def opUpdate : String := "storage.user.psql.Update"

def opDelete : String := "storage.user.psql.Delete"

/-- UsersPsqlStorage.GetUsers over the combined query-and-scan result of
the database round trip. -/
def GetUsersWith (ctx : CtxState) (queryRes : Except GoError (List User)) :
    OpOut (List User) :=
  if ctx.done then ⟨[], some (.wrap opGetUsers ctx.err), false⟩
  else
    match queryRes with
    | .error e => ⟨[], some (.wrap opGetUsers e), true⟩
    | .ok us => ⟨us, none, true⟩

/-- UsersPsqlStorage.GetUsers against the table semantics. -/
def GetUsers (ctx : CtxState) (t : Table) : OpOut (List User) :=
  GetUsersWith ctx (.ok t)

/-- UsersPsqlStorage.GetUserById over the row-scan result: sql.ErrNoRows
becomes the storage ErrNotFound sentinel, anything else passes through
wrapped. -/
def GetUserByIdWith (ctx : CtxState) (scanRes : Except GoError User) : OpOut User :=
  if ctx.done then ⟨zeroUser, some (.wrap opGetUserById ctx.err), false⟩
  else
    match scanRes with
    | .error e =>
      if errorsIs e .sqlNoRows then
        ⟨zeroUser, some (.wrap opGetUserById .umStorNotFound), true⟩
      else ⟨zeroUser, some (.wrap opGetUserById e), true⟩
    | .ok u => ⟨u, none, true⟩

/-- UsersPsqlStorage.GetUserById against the table semantics. -/
def GetUserById (ctx : CtxState) (t : Table) (uid : Uuid) : OpOut User :=
  GetUserByIdWith ctx (dbSelectById t uid)

/-- UsersPsqlStorage.Insert over the ExecContext error: a pq error with
code 23505 becomes the storage ErrAlreadyExists sentinel, anything else
passes through wrapped. -/
def InsertWith (ctx : CtxState) (execErr : Option GoError) (user : User) : OpOut User :=
  if ctx.done then ⟨zeroUser, some (.wrap opInsert ctx.err), false⟩
  else
    match execErr with
    | some e =>
      match e with
      | .pqErr c =>
        if c = "23505" then ⟨zeroUser, some (.wrap opInsert .umStorAlreadyExists), true⟩
        else ⟨zeroUser, some (.wrap opInsert (.pqErr c)), true⟩
      | _ => ⟨zeroUser, some (.wrap opInsert e), true⟩
    | none => ⟨user, none, true⟩

/-- UsersPsqlStorage.Insert against the table semantics; also returns
the table after the call. -/
def Insert (ctx : CtxState) (t : Table) (u : User) : OpOut User × Table :=
  if ctx.done then (InsertWith ctx none u, t)
  else (InsertWith ctx (dbInsertExec t u).1 u, (dbInsertExec t u).2)

/-- UsersPsqlStorage.Update over the ExecContext result (error, or the
affected-row count): zero rows affected becomes the storage ErrNotFound
sentinel. -/
def UpdateWith (ctx : CtxState) (execRes : Except GoError Nat) (user : User) : OpOut User :=
  if ctx.done then ⟨zeroUser, some (.wrap opUpdate ctx.err), false⟩
  else
    match execRes with
    | .error e => ⟨zeroUser, some (.wrap opUpdate e), true⟩
    | .ok rowsAffected =>
      if rowsAffected = 0 then ⟨zeroUser, some (.wrap opUpdate .umStorNotFound), true⟩
      else ⟨user, none, true⟩

/-- UsersPsqlStorage.Update against the table semantics; also returns
the table after the call. -/
def Update (ctx : CtxState) (t : Table) (uid : Uuid) (user : User) : OpOut User × Table :=
  if ctx.done then (UpdateWith ctx (.ok 0) user, t)
  else (UpdateWith ctx (.ok (dbUpdateExec t uid user).1) user, (dbUpdateExec t uid user).2)

/-- UsersPsqlStorage.Delete over the prior GetUserById result and the
DELETE ExecContext error: a NotFound from the existence check is
re-signalled as the storage ErrNotFound sentinel. -/
def DeleteWith (ctx : CtxState) (getRes : OpOut User) (execErr : Option GoError) : OpOut User :=
  if ctx.done then ⟨zeroUser, some (.wrap opDelete ctx.err), false⟩
  else
    match getRes.err with
    | some e =>
      if errorsIs e .umStorNotFound then
        ⟨zeroUser, some (.wrap opDelete .umStorNotFound), true⟩
      else ⟨zeroUser, some (.wrap opDelete e), true⟩
    | none =>
      match execErr with
      | some e => ⟨zeroUser, some (.wrap opDelete e), true⟩
      | none => ⟨getRes.val, none, true⟩

/-- UsersPsqlStorage.Delete against the table semantics; also returns
the table after the call. -/
def Delete (ctx : CtxState) (t : Table) (uid : Uuid) : OpOut User × Table :=
  if ctx.done then (DeleteWith ctx ⟨zeroUser, none, false⟩ none, t)
  else
    if (GetUserById ctx t uid).err = none then
      (DeleteWith ctx (GetUserById ctx t uid) none, dbDeleteExec t uid)
    else (DeleteWith ctx (GetUserById ctx t uid) none, t)

end Psql

namespace UmService

def opGetUsers : String := "service.users.GetUsers"

def opGetUserById : String := "service.users.GetUserById"

def opInsert : String := "service.users.Insert"

def opUpdate : String := "service.users.Update"

def opDelete : String := "service.users.Delete"

/-- UsersManager UsersService.GetUsers over the storage result: any
storage failure is wrapped unchanged. -/
def GetUsers (ctx : CtxState) (storRes : OpOut (List User)) : OpOut (List User) :=
  if ctx.done then ⟨[], some (.wrap opGetUsers ctx.err), false⟩
  else
    match storRes.err with
    | some e => ⟨[], some (.wrap opGetUsers e), true⟩
    | none => ⟨storRes.val, none, true⟩

/-- UsersManager UsersService.GetUserById over the storage result: the
storage ErrNotFound sentinel becomes the service ErrNotFound sentinel,
anything else is wrapped unchanged. -/
def GetUserById (ctx : CtxState) (storRes : OpOut User) : OpOut User :=
  if ctx.done then ⟨zeroUser, some (.wrap opGetUserById ctx.err), false⟩
  else
    match storRes.err with
    | some e =>
      if errorsIs e .umStorNotFound then
        ⟨zeroUser, some (.wrap opGetUserById .umSvcNotFound), true⟩
      else ⟨zeroUser, some (.wrap opGetUserById e), true⟩
    | none => ⟨storRes.val, none, true⟩

/-- UsersManager UsersService.Insert over the storage result: the
storage ErrAlreadyExists sentinel becomes the service ErrAlreadyExists
sentinel, anything else is wrapped unchanged. -/
def Insert (ctx : CtxState) (storRes : OpOut User) : OpOut User :=
  if ctx.done then ⟨zeroUser, some (.wrap opInsert ctx.err), false⟩
  else
    match storRes.err with
    | some e =>
      if errorsIs e .umStorAlreadyExists then
        ⟨zeroUser, some (.wrap opInsert .umSvcAlreadyExists), true⟩
      else ⟨zeroUser, some (.wrap opInsert e), true⟩
    | none => ⟨storRes.val, none, true⟩

/-- UsersManager UsersService.Update over the storage result. -/
def Update (ctx : CtxState) (storRes : OpOut User) : OpOut User :=
  if ctx.done then ⟨zeroUser, some (.wrap opUpdate ctx.err), false⟩
  else
    match storRes.err with
    | some e =>
      if errorsIs e .umStorNotFound then
        ⟨zeroUser, some (.wrap opUpdate .umSvcNotFound), true⟩
      else ⟨zeroUser, some (.wrap opUpdate e), true⟩
    | none => ⟨storRes.val, none, true⟩

/-- UsersManager UsersService.Delete over the storage result. -/
def Delete (ctx : CtxState) (storRes : OpOut User) : OpOut User :=
  if ctx.done then ⟨zeroUser, some (.wrap opDelete ctx.err), false⟩
  else
    match storRes.err with
    | some e =>
      if errorsIs e .umStorNotFound then
        ⟨zeroUser, some (.wrap opDelete .umSvcNotFound), true⟩
      else ⟨zeroUser, some (.wrap opDelete e), true⟩
    | none => ⟨storRes.val, none, true⟩

end UmService

/-- gRPC status codes used by this system. -/
inductive Code where
  | ok
  | canceled
  | unknown
  | invalidArgument
  | deadlineExceeded
  | notFound
  | alreadyExists
  | internal
  | unimplemented
deriving DecidableEq, Repr

/-- A gRPC status error: a code and a message. -/
structure GrpcStatus where
  code : Code
  msg : String
deriving DecidableEq, Repr

/-- Result of one gRPC method: a response or a status error, plus a flag
recording whether the domain service was invoked. -/
structure RpcOut (α : Type) where
  res : Except GrpcStatus α
  called : Bool

/-- The wire form of a User: the id travels as a string. -/
structure ProtoUser where
  id : String
  login : String
  password : String
  role : String
deriving DecidableEq, Repr

/-- Modelled from the spec: the domain profiles package
(internal/domain/profiles of both services) is not present in the source
tree; per the spec the transport adapter parses a string UUID, so the
wire-to-domain conversion fails exactly when the id string is not a
valid UUID. -/
def ProtoUsrToUsr (p : ProtoUser) : Except GoError User :=
  match uuidParse p.id with
  | none => .error .uuidInvalid
  | some uid => .ok ⟨uid, p.login, p.password, p.role⟩

/-- Modelled from the spec: the domain-to-wire conversion renders the
UUID as its string form and copies the remaining fields. -/
def UsrToProtoUsr (u : User) : ProtoUser := ⟨u.id.canon, u.login, u.password, u.role⟩

namespace UmGrpc

/-- ServerAPI.GetUsers over the service result: any service failure
becomes an Internal status. -/
def GetUsers (ctx : CtxState) (svcRes : OpOut (List User)) : RpcOut (List ProtoUser) :=
  if ctx.done then ⟨.error ⟨.deadlineExceeded, "context is over"⟩, false⟩
  else
    match svcRes.err with
    | some _ => ⟨.error ⟨.internal, "Error fetching users"⟩, true⟩
    | none => ⟨.ok (svcRes.val.map UsrToProtoUsr), true⟩

/-- ServerAPI.GetUserById over the request id string and the service
result: an unparsable id is InvalidArgument, the service ErrNotFound
sentinel is NotFound, anything else is Internal. -/
def GetUserById (ctx : CtxState) (reqId : String) (svcRes : OpOut User) : RpcOut ProtoUser :=
  if ctx.done then ⟨.error ⟨.deadlineExceeded, "context is over"⟩, false⟩
  else
    match uuidParse reqId with
    | none => ⟨.error ⟨.invalidArgument, "invalid id"⟩, false⟩
    | some _ =>
      match svcRes.err with
      | some e =>
        if errorsIs e .umSvcNotFound then ⟨.error ⟨.notFound, "User nt found"⟩, true⟩
        else ⟨.error ⟨.internal, "Error fetching users by id"⟩, true⟩
      | none => ⟨.ok (UsrToProtoUsr svcRes.val), true⟩

/-- ServerAPI.Insert over the request user and the service result: an
inconvertible wire user is InvalidArgument, the service ErrAlreadyExists
sentinel is AlreadyExists, anything else is Internal. -/
def Insert (ctx : CtxState) (reqUser : ProtoUser) (svcRes : OpOut User) : RpcOut ProtoUser :=
  if ctx.done then ⟨.error ⟨.deadlineExceeded, "context is over"⟩, false⟩
  else
    match ProtoUsrToUsr reqUser with
    | .error _ => ⟨.error ⟨.invalidArgument, "invalid argument"⟩, false⟩
    | .ok _ =>
      match svcRes.err with
      | some e =>
        if errorsIs e .umSvcAlreadyExists then
          ⟨.error ⟨.alreadyExists, "User already exists"⟩, true⟩
        else ⟨.error ⟨.internal, "Error inserting user"⟩, true⟩
      | none => ⟨.ok (UsrToProtoUsr svcRes.val), true⟩

/-- ServerAPI.Update over the request id and user and the service
result. -/
def Update (ctx : CtxState) (reqId : String) (reqUser : ProtoUser) (svcRes : OpOut User) :
    RpcOut ProtoUser :=
  if ctx.done then ⟨.error ⟨.deadlineExceeded, "context is over"⟩, false⟩
  else
    match uuidParse reqId with
    | none => ⟨.error ⟨.invalidArgument, "invalid id"⟩, false⟩
    | some _ =>
      match ProtoUsrToUsr reqUser with
      | .error _ => ⟨.error ⟨.invalidArgument, "invalid user for update"⟩, false⟩
      | .ok _ =>
        match svcRes.err with
        | some e =>
          if errorsIs e .umSvcNotFound then ⟨.error ⟨.notFound, "user not found"⟩, true⟩
          else ⟨.error ⟨.internal, "error updating user"⟩, true⟩
        | none => ⟨.ok (UsrToProtoUsr svcRes.val), true⟩

/-- ServerAPI.Delete over the request id and the service result. -/
def Delete (ctx : CtxState) (reqId : String) (svcRes : OpOut User) : RpcOut ProtoUser :=
  if ctx.done then ⟨.error ⟨.deadlineExceeded, "context is over"⟩, false⟩
  else
    match uuidParse reqId with
    | none => ⟨.error ⟨.invalidArgument, "invalid id"⟩, false⟩
    | some _ =>
      match svcRes.err with
      | some e =>
        if errorsIs e .umSvcNotFound then ⟨.error ⟨.notFound, "user not found"⟩, true⟩
        else ⟨.error ⟨.internal, "error deleting user"⟩, true⟩
      | none => ⟨.ok (UsrToProtoUsr svcRes.val), true⟩

end UmGrpc

/-- The API-Gateway helper mapping a gRPC status error back into the
gateway's storage sentinel set. -/
def GrpcErrorHelper (op : String) (st : GrpcStatus) : GoError :=
  match st.code with
  | .canceled => .wrap op .gwStorContextCanceled
  | .deadlineExceeded => .wrap op .gwStorDeadlineExeeced
  | .invalidArgument => .wrap op .gwStorInvalidArgument
  | .alreadyExists => .wrap op .gwStorAlreadyExists
  | .notFound => .wrap op .gwStorNotFound
  | _ => .wrap op .gwStorInternal

/-- The loop of the gateway's gRPC GetUsers: wire users that fail
conversion are skipped, the rest are kept in order. -/
def collectUsers : List ProtoUser → List User
  | [] => []
  | p :: rest =>
    match ProtoUsrToUsr p with
    | .error _ => collectUsers rest
    | .ok u => u :: collectUsers rest

namespace GwStorage

def opGetUsers : String := "storage.users.grpc.GetUsers"

def opGetUserById : String := "storage.users.grpc.GetUserById"

def opInsert : String := "storage.users.grpc.Insert"

def opUpdate : String := "storage.users.grpc.Update"

def opDelete : String := "storage.users.grpc.Delete"

/-- GRPCUsersStorage.GetUsers over the remote call result: a status
error goes through GrpcErrorHelper; on success inconvertible wire users
are skipped. -/
def GetUsers (ctx : CtxState) (rpcRes : Except GrpcStatus (List ProtoUser)) :
    OpOut (List User) :=
  if ctx.done then ⟨[], some (.wrap opGetUsers ctx.err), false⟩
  else
    match rpcRes with
    | .error st => ⟨[], some (GrpcErrorHelper opGetUsers st), true⟩
    | .ok pbUsers => ⟨collectUsers pbUsers, none, true⟩

/-- GRPCUsersStorage.GetUserById over the remote call result: a status
error goes through GrpcErrorHelper; a response user that fails
conversion is a wrapped conversion error. -/
def GetUserById (ctx : CtxState) (rpcRes : Except GrpcStatus ProtoUser) : OpOut User :=
  if ctx.done then ⟨zeroUser, some (.wrap opGetUserById ctx.err), false⟩
  else
    match rpcRes with
    | .error st => ⟨zeroUser, some (GrpcErrorHelper opGetUserById st), true⟩
    | .ok pb =>
      match ProtoUsrToUsr pb with
      | .error e => ⟨zeroUser, some (.wrap opGetUserById e), true⟩
      | .ok u => ⟨u, none, true⟩

/-- GRPCUsersStorage.Insert over the remote call result. -/
def Insert (ctx : CtxState) (rpcRes : Except GrpcStatus ProtoUser) : OpOut User :=
  if ctx.done then ⟨zeroUser, some (.wrap opInsert ctx.err), false⟩
  else
    match rpcRes with
    | .error st => ⟨zeroUser, some (GrpcErrorHelper opInsert st), true⟩
    | .ok pb =>
      match ProtoUsrToUsr pb with
      | .error e => ⟨zeroUser, some (.wrap opInsert e), true⟩
      | .ok u => ⟨u, none, true⟩

/-- GRPCUsersStorage.Update over the remote call result. -/
def Update (ctx : CtxState) (rpcRes : Except GrpcStatus ProtoUser) : OpOut User :=
  if ctx.done then ⟨zeroUser, some (.wrap opUpdate ctx.err), false⟩
  else
    match rpcRes with
    | .error st => ⟨zeroUser, some (GrpcErrorHelper opUpdate st), true⟩
    | .ok pb =>
      match ProtoUsrToUsr pb with
      | .error e => ⟨zeroUser, some (.wrap opUpdate e), true⟩
      | .ok u => ⟨u, none, true⟩

/-- GRPCUsersStorage.Delete over the remote call result. -/
def Delete (ctx : CtxState) (rpcRes : Except GrpcStatus ProtoUser) : OpOut User :=
  if ctx.done then ⟨zeroUser, some (.wrap opDelete ctx.err), false⟩
  else
    match rpcRes with
    | .error st => ⟨zeroUser, some (GrpcErrorHelper opDelete st), true⟩
    | .ok pb =>
      match ProtoUsrToUsr pb with
      | .error e => ⟨zeroUser, some (.wrap opDelete e), true⟩
      | .ok u => ⟨u, none, true⟩

end GwStorage

namespace GwService

def opGetUsers : String := "service.users.GetUsers"

def opGetUserById : String := "service.users.GetUserById"

def opInsert : String := "service.users.Insert"

def opUpdate : String := "service.users.Update"

def opDelete : String := "service.users.Delete"

/-- API-Gateway UsersService.GetUsers over the storage result: only the
cancellation sentinels are re-mapped; any other storage failure is
wrapped unchanged. -/
def GetUsers (ctx : CtxState) (storRes : OpOut (List User)) : OpOut (List User) :=
  if ctx.done then ⟨[], some (.wrap opGetUsers ctx.err), false⟩
  else
    match storRes.err with
    | some e =>
      if errorsIs e .gwStorContextCanceled then
        ⟨[], some (.wrap opGetUsers .gwSvcContextCanceled), true⟩
      else if errorsIs e .gwStorDeadlineExeeced then
        ⟨[], some (.wrap opGetUsers .gwSvcDeadlineExeeced), true⟩
      else ⟨[], some (.wrap opGetUsers e), true⟩
    | none => ⟨storRes.val, none, true⟩

/-- API-Gateway UsersService.GetUserById over the storage result: the
storage sentinels are re-mapped into the service sentinel set, with an
Internal fallback. -/
def GetUserById (ctx : CtxState) (storRes : OpOut User) : OpOut User :=
  if ctx.done then ⟨zeroUser, some (.wrap opGetUserById ctx.err), false⟩
  else
    match storRes.err with
    | some e =>
      if errorsIs e .gwStorContextCanceled then
        ⟨zeroUser, some (.wrap opGetUserById .gwSvcContextCanceled), true⟩
      else if errorsIs e .gwStorDeadlineExeeced then
        ⟨zeroUser, some (.wrap opGetUserById .gwSvcDeadlineExeeced), true⟩
      else if errorsIs e .gwStorInvalidArgument then
        ⟨zeroUser, some (.wrap opGetUserById .gwSvcInvalidArgument), true⟩
      else if errorsIs e .gwStorNotFound then
        ⟨zeroUser, some (.wrap opGetUserById .gwSvcNotFound), true⟩
      else ⟨zeroUser, some (.wrap opGetUserById .gwSvcInternal), true⟩
    | none => ⟨storRes.val, none, true⟩

/-- API-Gateway UsersService.Insert over the storage result. -/
def Insert (ctx : CtxState) (storRes : OpOut User) : OpOut User :=
  if ctx.done then ⟨zeroUser, some (.wrap opInsert ctx.err), false⟩
  else
    match storRes.err with
    | some e =>
      if errorsIs e .gwStorContextCanceled then
        ⟨zeroUser, some (.wrap opInsert .gwSvcContextCanceled), true⟩
      else if errorsIs e .gwStorDeadlineExeeced then
        ⟨zeroUser, some (.wrap opInsert .gwSvcDeadlineExeeced), true⟩
      else if errorsIs e .gwStorInvalidArgument then
        ⟨zeroUser, some (.wrap opInsert .gwSvcInvalidArgument), true⟩
      else if errorsIs e .gwStorAlreadyExists then
        ⟨zeroUser, some (.wrap opInsert .gwSvcAlreadyExists), true⟩
      else ⟨zeroUser, some (.wrap opInsert .gwSvcInternal), true⟩
    | none => ⟨storRes.val, none, true⟩

/-- API-Gateway UsersService.Update over the storage result. -/
def Update (ctx : CtxState) (storRes : OpOut User) : OpOut User :=
  if ctx.done then ⟨zeroUser, some (.wrap opUpdate ctx.err), false⟩
  else
    match storRes.err with
    | some e =>
      if errorsIs e .gwStorContextCanceled then
        ⟨zeroUser, some (.wrap opUpdate .gwSvcContextCanceled), true⟩
      else if errorsIs e .gwStorDeadlineExeeced then
        ⟨zeroUser, some (.wrap opUpdate .gwSvcDeadlineExeeced), true⟩
      else if errorsIs e .gwStorInvalidArgument then
        ⟨zeroUser, some (.wrap opUpdate .gwSvcInvalidArgument), true⟩
      else if errorsIs e .gwStorNotFound then
        ⟨zeroUser, some (.wrap opUpdate .gwSvcNotFound), true⟩
      else ⟨zeroUser, some (.wrap opUpdate .gwSvcInternal), true⟩
    | none => ⟨storRes.val, none, true⟩

/-- API-Gateway UsersService.Delete over the storage result. -/
def Delete (ctx : CtxState) (storRes : OpOut User) : OpOut User :=
  if ctx.done then ⟨zeroUser, some (.wrap opDelete ctx.err), false⟩
  else
    match storRes.err with
    | some e =>
      if errorsIs e .gwStorContextCanceled then
        ⟨zeroUser, some (.wrap opDelete .gwSvcContextCanceled), true⟩
      else if errorsIs e .gwStorDeadlineExeeced then
        ⟨zeroUser, some (.wrap opDelete .gwSvcDeadlineExeeced), true⟩
      else if errorsIs e .gwStorInvalidArgument then
        ⟨zeroUser, some (.wrap opDelete .gwSvcInvalidArgument), true⟩
      else if errorsIs e .gwStorNotFound then
        ⟨zeroUser, some (.wrap opDelete .gwSvcNotFound), true⟩
      else ⟨zeroUser, some (.wrap opDelete .gwSvcInternal), true⟩
    | none => ⟨storRes.val, none, true⟩

end GwService

/-- Outcome of one HTTP handler: the status code written, plus a flag
recording whether the domain service was invoked. -/
structure HttpOut where
  status : Nat
  called : Bool
deriving DecidableEq, Repr

/-- Result of decoding the JSON request body into a User: a decode error,
or a decoded user in which any absent field holds its Go zero value. -/
inductive Body where
  | malformed
  | decoded (u : User)
deriving DecidableEq, Repr

/-- Model of validator.Struct over the four required-tagged fields: the
required rule fails exactly on a zero-valued field. -/
def validateUser (u : User) : Bool :=
  decide (¬ u.id = zeroUuid) && decide (¬ u.login = "") &&
  decide (¬ u.password = "") && decide (¬ u.role = "")

namespace GwHandler

/-- UsersHandler.GetUsersHandler over the service result. -/
def GetUsersHandler (ctx : CtxState) (svcRes : OpOut (List User)) : HttpOut :=
  if ctx.done then ⟨408, false⟩
  else
    match svcRes.err with
    | some e =>
      if errorsIs e .gwSvcContextCanceled then ⟨408, true⟩
      else ⟨500, true⟩
    | none => ⟨200, true⟩

/-- UsersHandler.GetUserByIdHandler over the path id and the service
result. -/
def GetUserByIdHandler (ctx : CtxState) (idStr : String) (svcRes : OpOut User) : HttpOut :=
  if ctx.done then ⟨408, false⟩
  else
    match uuidParse idStr with
    | none => ⟨400, false⟩
    | some _ =>
      match svcRes.err with
      | some e =>
        if errorsIs e .gwSvcContextCanceled then ⟨408, true⟩
        else if errorsIs e .gwSvcInvalidArgument then ⟨400, true⟩
        else if errorsIs e .gwSvcNotFound then ⟨404, true⟩
        else ⟨500, true⟩
      | none => ⟨200, true⟩

/-- UsersHandler.InsertHandler over the decoded body and the service
result. -/
def InsertHandler (ctx : CtxState) (body : Body) (svcRes : OpOut User) : HttpOut :=
  if ctx.done then ⟨408, false⟩
  else
    match body with
    | .malformed => ⟨400, false⟩
    | .decoded u =>
      if validateUser u then
        match svcRes.err with
        | some e =>
          if errorsIs e .gwSvcContextCanceled then ⟨408, true⟩
          else if errorsIs e .gwSvcInvalidArgument then ⟨400, true⟩
          else if errorsIs e .gwSvcAlreadyExists then ⟨409, true⟩
          else ⟨500, true⟩
        | none => ⟨201, true⟩
      else ⟨400, false⟩

/-- UsersHandler.UpdateHandler over the path id, the decoded body and
the service result. -/
def UpdateHandler (ctx : CtxState) (idStr : String) (body : Body) (svcRes : OpOut User) :
    HttpOut :=
  if ctx.done then ⟨408, false⟩
  else
    match uuidParse idStr with
    | none => ⟨400, false⟩
    | some _ =>
      match body with
      | .malformed => ⟨400, false⟩
      | .decoded u =>
        if validateUser u then
          match svcRes.err with
          | some e =>
            if errorsIs e .gwSvcContextCanceled then ⟨408, true⟩
            else if errorsIs e .gwSvcInvalidArgument then ⟨400, true⟩
            else if errorsIs e .gwSvcNotFound then ⟨404, true⟩
            else ⟨500, true⟩
          | none => ⟨200, true⟩
        else ⟨400, false⟩

/-- UsersHandler.DeleteHandler over the path id and the service result. -/
def DeleteHandler (ctx : CtxState) (idStr : String) (svcRes : OpOut User) : HttpOut :=
  if ctx.done then ⟨408, false⟩
  else
    match uuidParse idStr with
    | none => ⟨400, false⟩
    | some _ =>
      match svcRes.err with
      | some e =>
        if errorsIs e .gwSvcContextCanceled then ⟨408, true⟩
        else if errorsIs e .gwSvcInvalidArgument then ⟨400, true⟩
        else if errorsIs e .gwSvcNotFound then ⟨404, true⟩
        else ⟨500, true⟩
      | none => ⟨200, true⟩

end GwHandler

/-- The five logical failure kinds of the spec's contract; Canceled and
DeadlineExceeded are one kind there. -/
inductive ErrKind where
  | notFound
  | alreadyExists
  | invalidArgument
  | canceledOrDeadline
  | internal
deriving DecidableEq, Repr

/-- The contract kind of a sentinel or context error; none for driver
errors, conversion errors and foreign errors. -/
def kindOf : GoError → Option ErrKind
  | .ctxCanceled => some .canceledOrDeadline
  | .ctxDeadline => some .canceledOrDeadline
  | .umStorNotFound => some .notFound
  | .umStorAlreadyExists => some .alreadyExists
  | .umSvcNotFound => some .notFound
  | .umSvcAlreadyExists => some .alreadyExists
  | .umSvcInvalidArgument => some .invalidArgument
  | .gwStorNotFound => some .notFound
  | .gwStorAlreadyExists => some .alreadyExists
  | .gwStorInvalidArgument => some .invalidArgument
  | .gwStorDeadlineExeeced => some .canceledOrDeadline
  | .gwStorContextCanceled => some .canceledOrDeadline
  | .gwStorInternal => some .internal
  | .gwSvcNotFound => some .notFound
  | .gwSvcAlreadyExists => some .alreadyExists
  | .gwSvcInvalidArgument => some .invalidArgument
  | .gwSvcDeadlineExeeced => some .canceledOrDeadline
  | .gwSvcContextCanceled => some .canceledOrDeadline
  | .gwSvcInternal => some .internal
  | _ => none

/-- A concrete UUID used in witnesses. -/
def sampleUuid : Uuid := ⟨"11111111-2222-3333-4444-555555555555"⟩

/-- A second concrete UUID used in witnesses. -/
def sampleUuid2 : Uuid := ⟨"aaaaaaaa-bbbb-cccc-dddd-eeeeeeeeeeee"⟩

/-- A concrete user used in witnesses. -/
def sampleUser : User := ⟨sampleUuid, "alice", "pw", "admin"⟩

/-- Sanity check: the sample UUID string parses to the sample UUID. -/
theorem sampleUuid_parses :
    uuidParse "11111111-2222-3333-4444-555555555555" = some sampleUuid := by decide

/-- Sanity check: a malformed id string does not parse. -/
theorem bad_id_does_not_parse : uuidParse "not-a-uuid" = none := by decide

/-- Sanity check: the wire round trip of the sample user converts back. -/
theorem sampleUser_roundtrip : ProtoUsrToUsr (UsrToProtoUsr sampleUser) = .ok sampleUser := by
  decide

/-- Sanity check: the sample user passes required-field validation. -/
theorem sampleUser_validates : validateUser sampleUser = true := by decide

/-- Sanity check: an empty login fails required-field validation. -/
theorem empty_login_fails_validation :
    validateUser ⟨sampleUuid, "", "pw", "admin"⟩ = false := by decide

/-- C1: inserting a user whose identifier already exists surfaces
AlreadyExists at every layer: the Postgres storage turns the
unique-constraint violation (pq code 23505) into its ErrAlreadyExists
sentinel, the UsersManager service re-maps it into its own sentinel, the
gRPC server answers with status code AlreadyExists, the gateway helper
maps that status back into the gateway ErrAlreadyExists sentinel, the
gateway service re-maps it once more, and the HTTP insert handler
responds 409 Conflict. -/
theorem C1_duplicate_insert_already_exists_each_layer :
    (∀ (t : Table) (u : User), (t.any fun r => decide (r.id = u.id)) = true →
      (Psql.Insert .live t u).1.err = some (.wrap Psql.opInsert .umStorAlreadyExists)) ∧
    (∀ (v : User) (e : GoError) (c : Bool), e.base = .umStorAlreadyExists →
      (UmService.Insert .live ⟨v, some e, c⟩).err =
        some (.wrap UmService.opInsert .umSvcAlreadyExists)) ∧
    (∀ (p : ProtoUser) (u0 v : User) (e : GoError) (c : Bool),
      ProtoUsrToUsr p = .ok u0 → e.base = .umSvcAlreadyExists →
      (UmGrpc.Insert .live p ⟨v, some e, c⟩).res =
        .error ⟨.alreadyExists, "User already exists"⟩) ∧
    (∀ (op msg : String),
      (GrpcErrorHelper op ⟨.alreadyExists, msg⟩).base = .gwStorAlreadyExists) ∧
    (∀ (v : User) (e : GoError) (c : Bool), e.base = .gwStorAlreadyExists →
      (GwService.Insert .live ⟨v, some e, c⟩).err =
        some (.wrap GwService.opInsert .gwSvcAlreadyExists)) ∧
    (∀ (u v : User) (e : GoError) (c : Bool), validateUser u = true →
      e.base = .gwSvcAlreadyExists →
      GwHandler.InsertHandler .live (.decoded u) ⟨v, some e, c⟩ = ⟨409, true⟩) := by
  refine ⟨?_, ?_, ?_, ?_, ?_, ?_⟩
  · intro t u h
    simp [Psql.Insert, dbInsertExec, h, Psql.InsertWith, CtxState.done]
  · intro v e c h
    simp [UmService.Insert, CtxState.done, errorsIs, h]
  · intro p u0 v e c hconv h
    simp [UmGrpc.Insert, CtxState.done, hconv, errorsIs, h]
  · intro op msg
    simp [GrpcErrorHelper, GoError.base]
  · intro v e c h
    simp [GwService.Insert, CtxState.done, errorsIs, h]
  · intro u v e c hv h
    simp [GwHandler.InsertHandler, CtxState.done, hv, errorsIs, h]

/-- Witness for C1 at concrete inputs: a one-row table and the same user
inserted again, and concrete AlreadyExists errors at each boundary. -/
theorem C1_duplicate_insert_witness :
    (Psql.Insert .live [sampleUser] sampleUser).1.err =
      some (.wrap Psql.opInsert .umStorAlreadyExists) ∧
    (UmService.Insert .live ⟨zeroUser, some (.wrap "s" .umStorAlreadyExists), true⟩).err =
      some (.wrap UmService.opInsert .umSvcAlreadyExists) ∧
    (UmGrpc.Insert .live (UsrToProtoUsr sampleUser)
        ⟨zeroUser, some (.wrap "s" .umSvcAlreadyExists), true⟩).res =
      .error ⟨.alreadyExists, "User already exists"⟩ ∧
    (GrpcErrorHelper "op" ⟨.alreadyExists, "m"⟩).base = .gwStorAlreadyExists ∧
    (GwService.Insert .live ⟨zeroUser, some (.wrap "s" .gwStorAlreadyExists), true⟩).err =
      some (.wrap GwService.opInsert .gwSvcAlreadyExists) ∧
    GwHandler.InsertHandler .live (.decoded sampleUser)
        ⟨zeroUser, some (.wrap "s" .gwSvcAlreadyExists), true⟩ = ⟨409, true⟩ := by
  obtain ⟨h1, h2, h3, h4, h5, h6⟩ := C1_duplicate_insert_already_exists_each_layer
  exact ⟨h1 _ _ (by decide), h2 _ _ _ (by decide),
    h3 _ sampleUser _ _ _ (by decide) (by decide), h4 _ _,
    h5 _ _ _ (by decide), h6 _ _ _ _ (by decide) (by decide)⟩

/-- C2: fetching an identifier with no matching row surfaces NotFound at
every layer: the Postgres storage turns sql.ErrNoRows into its
ErrNotFound sentinel (likewise when no row matches the id), the
UsersManager service re-maps it, the gRPC server answers with status
code NotFound, the gateway helper maps that status back into the gateway
ErrNotFound sentinel, the gateway service re-maps it once more, and the
HTTP get-by-id handler responds 404 Not Found. -/
theorem C2_missing_id_not_found_each_layer :
    (∀ (scan : Except GoError User), scan = .error .sqlNoRows →
      (Psql.GetUserByIdWith .live scan).err =
        some (.wrap Psql.opGetUserById .umStorNotFound)) ∧
    (∀ (t : Table) (uid : Uuid), findById t uid = none →
      (Psql.GetUserById .live t uid).err =
        some (.wrap Psql.opGetUserById .umStorNotFound)) ∧
    (∀ (v : User) (e : GoError) (c : Bool), e.base = .umStorNotFound →
      (UmService.GetUserById .live ⟨v, some e, c⟩).err =
        some (.wrap UmService.opGetUserById .umSvcNotFound)) ∧
    (∀ (idStr : String) (uid : Uuid) (v : User) (e : GoError) (c : Bool),
      uuidParse idStr = some uid → e.base = .umSvcNotFound →
      (UmGrpc.GetUserById .live idStr ⟨v, some e, c⟩).res =
        .error ⟨.notFound, "User nt found"⟩) ∧
    (∀ (op msg : String),
      (GrpcErrorHelper op ⟨.notFound, msg⟩).base = .gwStorNotFound) ∧
    (∀ (v : User) (e : GoError) (c : Bool), e.base = .gwStorNotFound →
      (GwService.GetUserById .live ⟨v, some e, c⟩).err =
        some (.wrap GwService.opGetUserById .gwSvcNotFound)) ∧
    (∀ (idStr : String) (uid : Uuid) (v : User) (e : GoError) (c : Bool),
      uuidParse idStr = some uid → e.base = .gwSvcNotFound →
      GwHandler.GetUserByIdHandler .live idStr ⟨v, some e, c⟩ = ⟨404, true⟩) := by
  refine ⟨?_, ?_, ?_, ?_, ?_, ?_, ?_⟩
  · intro scan h
    simp [Psql.GetUserByIdWith, CtxState.done, h, errorsIs]
    decide
  · intro t uid h
    simp [Psql.GetUserById, dbSelectById, h, Psql.GetUserByIdWith, CtxState.done, errorsIs]
    decide
  · intro v e c h
    simp [UmService.GetUserById, CtxState.done, errorsIs, h]
  · intro idStr uid v e c hp h
    simp [UmGrpc.GetUserById, CtxState.done, hp, errorsIs, h]
  · intro op msg
    simp [GrpcErrorHelper, GoError.base]
  · intro v e c h
    simp [GwService.GetUserById, CtxState.done, errorsIs, h]
  · intro idStr uid v e c hp h
    simp [GwHandler.GetUserByIdHandler, CtxState.done, hp, errorsIs, h]

/-- Witness for C2 at concrete inputs: an empty table, a concrete id
string, and concrete NotFound errors at each boundary. -/
theorem C2_missing_id_witness :
    (Psql.GetUserByIdWith .live (.error .sqlNoRows)).err =
      some (.wrap Psql.opGetUserById .umStorNotFound) ∧
    (Psql.GetUserById .live [] sampleUuid).err =
      some (.wrap Psql.opGetUserById .umStorNotFound) ∧
    (UmService.GetUserById .live ⟨zeroUser, some (.wrap "s" .umStorNotFound), true⟩).err =
      some (.wrap UmService.opGetUserById .umSvcNotFound) ∧
    (UmGrpc.GetUserById .live "11111111-2222-3333-4444-555555555555"
        ⟨zeroUser, some (.wrap "s" .umSvcNotFound), true⟩).res =
      .error ⟨.notFound, "User nt found"⟩ ∧
    (GrpcErrorHelper "op" ⟨.notFound, "m"⟩).base = .gwStorNotFound ∧
    (GwService.GetUserById .live ⟨zeroUser, some (.wrap "s" .gwStorNotFound), true⟩).err =
      some (.wrap GwService.opGetUserById .gwSvcNotFound) ∧
    GwHandler.GetUserByIdHandler .live "11111111-2222-3333-4444-555555555555"
        ⟨zeroUser, some (.wrap "s" .gwSvcNotFound), true⟩ = ⟨404, true⟩ := by
  obtain ⟨h1, h2, h3, h4, h5, h6, h7⟩ := C2_missing_id_not_found_each_layer
  exact ⟨h1 _ rfl, h2 _ _ (by decide), h3 _ _ _ (by decide),
    h4 _ sampleUuid _ _ _ (by decide) (by decide), h5 _ _,
    h6 _ _ _ (by decide), h7 _ sampleUuid _ _ _ (by decide) (by decide)⟩

/-- Unfolding lemma: wrapping does not change the innermost error. -/
@[simp] theorem base_wrap_eq (op : String) (e : GoError) :
    (GoError.wrap op e).base = e.base := rfl

/-- Unfolding lemma: a bare sentinel is its own innermost error. -/
theorem base_sqlNoRows_eq : GoError.base GoError.sqlNoRows = GoError.sqlNoRows := rfl

/-- C4: on the Postgres storage, Update returns the NotFound sentinel
exactly when the executed UPDATE affects zero rows, and Delete returns
the NotFound sentinel exactly when the prior existence check on the same
identifier fails with NotFound; in both situations the call fails rather
than silently succeeding. -/
theorem C4_update_delete_not_found_exactly :
    ∀ (t : Table) (uid : Uuid) (u : User),
      (((Psql.Update .live t uid u).1.err =
          some (.wrap Psql.opUpdate .umStorNotFound)) ↔ (dbUpdateExec t uid u).1 = 0) ∧
      (((Psql.Delete .live t uid).1.err =
          some (.wrap Psql.opDelete .umStorNotFound)) ↔
        (Psql.GetUserById .live t uid).err =
          some (.wrap Psql.opGetUserById .umStorNotFound)) ∧
      ((dbUpdateExec t uid u).1 = 0 → ¬ (Psql.Update .live t uid u).1.err = none) ∧
      (findById t uid = none → ¬ (Psql.Delete .live t uid).1.err = none) := by
  intro t uid u
  refine ⟨?_, ?_, ?_, ?_⟩
  · by_cases h : (dbUpdateExec t uid u).1 = 0 <;>
      simp [Psql.Update, Psql.UpdateWith, CtxState.done, h]
  · cases hf : findById t uid with
    | some r =>
      simp [Psql.Delete, Psql.GetUserById, dbSelectById, hf, Psql.GetUserByIdWith,
        CtxState.done, Psql.DeleteWith, errorsIs]
    | none =>
      simp [Psql.Delete, Psql.GetUserById, dbSelectById, hf, Psql.GetUserByIdWith,
        CtxState.done, Psql.DeleteWith, errorsIs, base_sqlNoRows_eq, GoError.base]
  · intro h
    simp [Psql.Update, Psql.UpdateWith, CtxState.done, h]
  · intro hf
    simp [Psql.Delete, Psql.GetUserById, dbSelectById, hf, Psql.GetUserByIdWith,
      CtxState.done, Psql.DeleteWith, errorsIs, base_sqlNoRows_eq, GoError.base]

/-- Witness for C4 at concrete inputs: a missing identifier makes Update
report NotFound and fail, and a present identifier makes Delete succeed. -/
theorem C4_update_delete_witness :
    ((Psql.Update .live [sampleUser] sampleUuid2 sampleUser).1.err =
        some (.wrap Psql.opUpdate .umStorNotFound)) ∧
    ¬ (Psql.Update .live [sampleUser] sampleUuid2 sampleUser).1.err = none ∧
    ¬ (Psql.Delete .live [] sampleUuid).1.err = none := by
  obtain ⟨h1, _, h3, h4⟩ := C4_update_delete_not_found_exactly [sampleUser] sampleUuid2 sampleUser
  refine ⟨h1.mpr (by decide), h3 (by decide), ?_⟩
  exact (C4_update_delete_not_found_exactly [] sampleUuid sampleUser).2.2.2 (by decide)

/-- The UPDATE statement leaves the id column of every row unchanged. -/
theorem applyUpdate_id (uid : Uuid) (u r : User) : (applyUpdate uid u r).id = r.id := by
  unfold applyUpdate
  split <;> rfl

/-- C8: no operation changes the identifier of a stored row: the UPDATE
sets only login, password and role of the matching row, every row keeps
its identifier, rows with other identifiers are untouched, and the list
of identifiers in the table after any Update call equals the list before
it. -/
theorem C8_update_preserves_identifiers :
    ∀ (ctx : CtxState) (t : Table) (uid : Uuid) (u : User),
      ((Psql.Update ctx t uid u).2.map (fun r => r.id)) = t.map (fun r => r.id) ∧
      (∀ r : User, (applyUpdate uid u r).id = r.id ∧
        (¬ r.id = uid → applyUpdate uid u r = r) ∧
        (r.id = uid → applyUpdate uid u r = ⟨r.id, u.login, u.password, u.role⟩)) := by
  intro ctx t uid u
  constructor
  · cases ctx with
    | live =>
      have hmap : ((fun r : User => r.id) ∘ applyUpdate uid u) = fun r : User => r.id :=
        funext (fun r => applyUpdate_id uid u r)
      simp [Psql.Update, CtxState.done, dbUpdateExec, List.map_map, hmap]
    | canceledCtx => simp [Psql.Update, CtxState.done]
    | deadlineCtx => simp [Psql.Update, CtxState.done]
  · intro r
    refine ⟨applyUpdate_id uid u r, ?_, ?_⟩
    · intro h
      simp [applyUpdate, h]
    · intro h
      simp [applyUpdate, h]

/-- Witness for C8 at concrete inputs: updating a one-row table under a
non-matching and a matching identifier. -/
theorem C8_update_preserves_identifiers_witness :
    ((Psql.Update .live [sampleUser] sampleUuid2 sampleUser).2.map (fun r => r.id)) =
      [sampleUser].map (fun r => r.id) ∧
    applyUpdate sampleUuid2 sampleUser sampleUser = sampleUser ∧
    applyUpdate sampleUuid ⟨sampleUuid2, "l", "p", "r"⟩ sampleUser =
      ⟨sampleUuid, "l", "p", "r"⟩ := by
  refine ⟨(C8_update_preserves_identifiers .live [sampleUser] sampleUuid2 sampleUser).1,
    ((C8_update_preserves_identifiers .live [] sampleUuid2 sampleUser).2 sampleUser).2.1
      (by decide), ?_⟩
  have h := ((C8_update_preserves_identifiers .live [] sampleUuid
    ⟨sampleUuid2, "l", "p", "r"⟩).2 sampleUser).2.2 (by decide)
  simpa using h

/-- C7: a POST or PUT whose body fails to decode, or whose decoded user
fails validation of the four required fields, is answered 400 Bad
Request without invoking the service; a path id that is not a valid UUID
likewise yields 400 before any service call on the get-by-id, update and
delete routes. -/
theorem C7_bad_request_before_service :
    (∀ (svcRes : OpOut User),
      GwHandler.InsertHandler .live .malformed svcRes = ⟨400, false⟩) ∧
    (∀ (u : User) (svcRes : OpOut User), validateUser u = false →
      GwHandler.InsertHandler .live (.decoded u) svcRes = ⟨400, false⟩) ∧
    (∀ (idStr : String) (uid : Uuid) (svcRes : OpOut User), uuidParse idStr = some uid →
      GwHandler.UpdateHandler .live idStr .malformed svcRes = ⟨400, false⟩) ∧
    (∀ (idStr : String) (uid : Uuid) (u : User) (svcRes : OpOut User),
      uuidParse idStr = some uid → validateUser u = false →
      GwHandler.UpdateHandler .live idStr (.decoded u) svcRes = ⟨400, false⟩) ∧
    (∀ (idStr : String) (svcRes : OpOut User), uuidParse idStr = none →
      GwHandler.GetUserByIdHandler .live idStr svcRes = ⟨400, false⟩) ∧
    (∀ (idStr : String) (body : Body) (svcRes : OpOut User), uuidParse idStr = none →
      GwHandler.UpdateHandler .live idStr body svcRes = ⟨400, false⟩) ∧
    (∀ (idStr : String) (svcRes : OpOut User), uuidParse idStr = none →
      GwHandler.DeleteHandler .live idStr svcRes = ⟨400, false⟩) := by
  refine ⟨?_, ?_, ?_, ?_, ?_, ?_, ?_⟩
  · intro svcRes
    simp [GwHandler.InsertHandler, CtxState.done]
  · intro u svcRes hv
    simp [GwHandler.InsertHandler, CtxState.done, hv]
  · intro idStr uid svcRes hp
    simp [GwHandler.UpdateHandler, CtxState.done, hp]
  · intro idStr uid u svcRes hp hv
    simp [GwHandler.UpdateHandler, CtxState.done, hp, hv]
  · intro idStr svcRes hp
    simp [GwHandler.GetUserByIdHandler, CtxState.done, hp]
  · intro idStr body svcRes hp
    simp [GwHandler.UpdateHandler, CtxState.done, hp]
  · intro idStr svcRes hp
    simp [GwHandler.DeleteHandler, CtxState.done, hp]

/-- Witness for C7 at concrete inputs: a malformed body, a user with an
empty login, and a path id that is not a UUID. -/
theorem C7_bad_request_witness :
    GwHandler.InsertHandler .live .malformed ⟨zeroUser, none, true⟩ = ⟨400, false⟩ ∧
    GwHandler.InsertHandler .live (.decoded ⟨sampleUuid, "", "pw", "admin"⟩)
      ⟨zeroUser, none, true⟩ = ⟨400, false⟩ ∧
    GwHandler.UpdateHandler .live "11111111-2222-3333-4444-555555555555" .malformed
      ⟨zeroUser, none, true⟩ = ⟨400, false⟩ ∧
    GwHandler.UpdateHandler .live "11111111-2222-3333-4444-555555555555"
      (.decoded ⟨sampleUuid, "", "pw", "admin"⟩) ⟨zeroUser, none, true⟩ = ⟨400, false⟩ ∧
    GwHandler.GetUserByIdHandler .live "not-a-uuid" ⟨zeroUser, none, true⟩ = ⟨400, false⟩ ∧
    GwHandler.UpdateHandler .live "not-a-uuid" (.decoded sampleUser)
      ⟨zeroUser, none, true⟩ = ⟨400, false⟩ ∧
    GwHandler.DeleteHandler .live "not-a-uuid" ⟨zeroUser, none, true⟩ = ⟨400, false⟩ := by
  obtain ⟨h1, h2, h3, h4, h5, h6, h7⟩ := C7_bad_request_before_service
  exact ⟨h1 _, h2 _ _ (by decide), h3 _ sampleUuid _ (by decide),
    h4 _ sampleUuid _ _ (by decide) (by decide), h5 _ _ (by decide),
    h6 _ _ _ (by decide), h7 _ _ (by decide)⟩

/-- The gateway GetUsers loop keeps exactly the convertible wire users,
in their original order. -/
theorem collectUsers_eq_filterMap (l : List ProtoUser) :
    collectUsers l = l.filterMap (fun p => (ProtoUsrToUsr p).toOption) := by
  induction l with
  | nil => rfl
  | cons p rest ih =>
    cases h : ProtoUsrToUsr p <;>
      simp [collectUsers, h, List.filterMap_cons, Except.toOption, ih]

/-- C10: the gateway's gRPC-backed GetUsers never fails because of a
malformed user in a successful reply: every inconvertible wire user is
skipped, the error is nil, and the returned list is exactly the
convertible users in their original order. -/
theorem C10_get_users_skips_inconvertible :
    ∀ (pbUsers : List ProtoUser),
      (GwStorage.GetUsers .live (.ok pbUsers)).err = none ∧
      (GwStorage.GetUsers .live (.ok pbUsers)).val =
        pbUsers.filterMap (fun p => (ProtoUsrToUsr p).toOption) := by
  intro pbUsers
  constructor
  · simp [GwStorage.GetUsers, CtxState.done]
  · simp [GwStorage.GetUsers, CtxState.done, collectUsers_eq_filterMap]

/-- The status codes the UsersManager gRPC server actually uses on
failure. -/
def umFailCodes : List Code :=
  [.deadlineExceeded, .invalidArgument, .notFound, .alreadyExists, .internal]

/-- Every failing GetUsers response carries one of the five codes. -/
theorem umGrpc_getUsers_codes :
    ∀ (ctx : CtxState) (svcRes : OpOut (List User)) (st : GrpcStatus),
      (UmGrpc.GetUsers ctx svcRes).res = .error st → st.code ∈ umFailCodes := by
  intro ctx svcRes st h
  unfold UmGrpc.GetUsers at h
  cases ctx <;> simp [CtxState.done] at h
  case live =>
    rcases he : svcRes.err with _ | e <;> rw [he] at h <;> simp at h
    case some => rw [← h]; decide
  case canceledCtx => rw [← h]; decide
  case deadlineCtx => rw [← h]; decide

/-- Every failing GetUserById response carries one of the five codes. -/
theorem umGrpc_getUserById_codes :
    ∀ (ctx : CtxState) (reqId : String) (svcRes : OpOut User) (st : GrpcStatus),
      (UmGrpc.GetUserById ctx reqId svcRes).res = .error st → st.code ∈ umFailCodes := by
  intro ctx reqId svcRes st h
  unfold UmGrpc.GetUserById at h
  cases ctx <;> simp [CtxState.done] at h
  case live =>
    rcases hp : uuidParse reqId with _ | uid <;> rw [hp] at h <;> simp at h
    case none => rw [← h]; decide
    case some =>
      rcases he : svcRes.err with _ | e <;> rw [he] at h <;> simp at h
      case some =>
        by_cases hb : errorsIs e .umSvcNotFound = true <;> simp [hb] at h <;>
          rw [← h] <;> decide
  case canceledCtx => rw [← h]; decide
  case deadlineCtx => rw [← h]; decide

/-- Every failing Insert response carries one of the five codes. -/
theorem umGrpc_insert_codes :
    ∀ (ctx : CtxState) (reqUser : ProtoUser) (svcRes : OpOut User) (st : GrpcStatus),
      (UmGrpc.Insert ctx reqUser svcRes).res = .error st → st.code ∈ umFailCodes := by
  intro ctx reqUser svcRes st h
  unfold UmGrpc.Insert at h
  cases ctx <;> simp [CtxState.done] at h
  case live =>
    cases hc : ProtoUsrToUsr reqUser with
    | error e0 =>
      rw [hc] at h; simp at h; rw [← h]; decide
    | ok u0 =>
      rw [hc] at h
      rcases he : svcRes.err with _ | e <;> rw [he] at h <;> simp at h
      case some =>
        by_cases hb : errorsIs e .umSvcAlreadyExists = true <;> simp [hb] at h <;>
          rw [← h] <;> decide
  case canceledCtx => rw [← h]; decide
  case deadlineCtx => rw [← h]; decide

/-- Every failing Update response carries one of the five codes. -/
theorem umGrpc_update_codes :
    ∀ (ctx : CtxState) (reqId : String) (reqUser : ProtoUser) (svcRes : OpOut User)
      (st : GrpcStatus),
      (UmGrpc.Update ctx reqId reqUser svcRes).res = .error st → st.code ∈ umFailCodes := by
  intro ctx reqId reqUser svcRes st h
  unfold UmGrpc.Update at h
  cases ctx <;> simp [CtxState.done] at h
  case live =>
    rcases hp : uuidParse reqId with _ | uid <;> rw [hp] at h <;> simp at h
    case none => rw [← h]; decide
    case some =>
      cases hc : ProtoUsrToUsr reqUser with
      | error e0 =>
        rw [hc] at h; simp at h; rw [← h]; decide
      | ok u0 =>
        rw [hc] at h
        rcases he : svcRes.err with _ | e <;> rw [he] at h <;> simp at h
        case some =>
          by_cases hb : errorsIs e .umSvcNotFound = true <;> simp [hb] at h <;>
            rw [← h] <;> decide
  case canceledCtx => rw [← h]; decide
  case deadlineCtx => rw [← h]; decide

/-- Every failing Delete response carries one of the five codes. -/
theorem umGrpc_delete_codes :
    ∀ (ctx : CtxState) (reqId : String) (svcRes : OpOut User) (st : GrpcStatus),
      (UmGrpc.Delete ctx reqId svcRes).res = .error st → st.code ∈ umFailCodes := by
  intro ctx reqId svcRes st h
  unfold UmGrpc.Delete at h
  cases ctx <;> simp [CtxState.done] at h
  case live =>
    rcases hp : uuidParse reqId with _ | uid <;> rw [hp] at h <;> simp at h
    case none => rw [← h]; decide
    case some =>
      rcases he : svcRes.err with _ | e <;> rw [he] at h <;> simp at h
      case some =>
        by_cases hb : errorsIs e .umSvcNotFound = true <;> simp [hb] at h <;>
          rw [← h] <;> decide
  case canceledCtx => rw [← h]; decide
  case deadlineCtx => rw [← h]; decide

/-- C6 counterexample: a request arriving with an already-cancelled
context is answered with DeadlineExceeded, which is not Canceled and is
outside the claim's code set. -/
theorem C6_precancelled_counterexample :
    (UmGrpc.GetUsers .canceledCtx ⟨[], none, true⟩).res =
      .error ⟨.deadlineExceeded, "context is over"⟩ ∧
    ¬ (Code.deadlineExceeded = .invalidArgument ∨ Code.deadlineExceeded = .notFound ∨
      Code.deadlineExceeded = .alreadyExists ∨ Code.deadlineExceeded = .canceled ∨
      Code.deadlineExceeded = .internal) := by
  exact ⟨rfl, by decide⟩

/-- C6 amended: every failing response of the five gRPC methods carries
one of InvalidArgument, NotFound, AlreadyExists, DeadlineExceeded, or
Internal, and a request arriving with an already-cancelled context is
answered with DeadlineExceeded (the server never emits Canceled). -/
theorem C6_amended_grpc_failure_codes :
    (∀ (ctx : CtxState) (svcRes : OpOut (List User)) (st : GrpcStatus),
      (UmGrpc.GetUsers ctx svcRes).res = .error st → st.code ∈ umFailCodes) ∧
    (∀ (ctx : CtxState) (reqId : String) (svcRes : OpOut User) (st : GrpcStatus),
      (UmGrpc.GetUserById ctx reqId svcRes).res = .error st → st.code ∈ umFailCodes) ∧
    (∀ (ctx : CtxState) (reqUser : ProtoUser) (svcRes : OpOut User) (st : GrpcStatus),
      (UmGrpc.Insert ctx reqUser svcRes).res = .error st → st.code ∈ umFailCodes) ∧
    (∀ (ctx : CtxState) (reqId : String) (reqUser : ProtoUser) (svcRes : OpOut User)
      (st : GrpcStatus),
      (UmGrpc.Update ctx reqId reqUser svcRes).res = .error st → st.code ∈ umFailCodes) ∧
    (∀ (ctx : CtxState) (reqId : String) (svcRes : OpOut User) (st : GrpcStatus),
      (UmGrpc.Delete ctx reqId svcRes).res = .error st → st.code ∈ umFailCodes) ∧
    (∀ (ctx : CtxState), ctx.done = true →
      (∀ (svcRes : OpOut (List User)),
        (UmGrpc.GetUsers ctx svcRes).res = .error ⟨.deadlineExceeded, "context is over"⟩) ∧
      (∀ (reqId : String) (svcRes : OpOut User),
        (UmGrpc.GetUserById ctx reqId svcRes).res =
          .error ⟨.deadlineExceeded, "context is over"⟩) ∧
      (∀ (reqUser : ProtoUser) (svcRes : OpOut User),
        (UmGrpc.Insert ctx reqUser svcRes).res =
          .error ⟨.deadlineExceeded, "context is over"⟩) ∧
      (∀ (reqId : String) (reqUser : ProtoUser) (svcRes : OpOut User),
        (UmGrpc.Update ctx reqId reqUser svcRes).res =
          .error ⟨.deadlineExceeded, "context is over"⟩) ∧
      (∀ (reqId : String) (svcRes : OpOut User),
        (UmGrpc.Delete ctx reqId svcRes).res =
          .error ⟨.deadlineExceeded, "context is over"⟩)) := by
  refine ⟨umGrpc_getUsers_codes, umGrpc_getUserById_codes, umGrpc_insert_codes,
    umGrpc_update_codes, umGrpc_delete_codes, ?_⟩
  intro ctx hdone
  refine ⟨?_, ?_, ?_, ?_, ?_⟩ <;> intros <;>
    simp [UmGrpc.GetUsers, UmGrpc.GetUserById, UmGrpc.Insert, UmGrpc.Update,
      UmGrpc.Delete, hdone]

/-- Witness for the amended C6 at concrete inputs: a failing id parse, a
failing service call, and a cancelled context. -/
theorem C6_amended_witness :
    Code.invalidArgument ∈ umFailCodes ∧
    Code.internal ∈ umFailCodes ∧
    (UmGrpc.GetUsers .canceledCtx ⟨[], none, true⟩).res =
      .error ⟨.deadlineExceeded, "context is over"⟩ := by
  obtain ⟨h1, h2, _, _, _, h6⟩ := C6_amended_grpc_failure_codes
  refine ⟨?_, ?_, ((h6 .canceledCtx rfl).1 ⟨[], none, true⟩)⟩
  · have := h2 .live "bad" ⟨zeroUser, none, true⟩ ⟨.invalidArgument, "invalid id"⟩ (by rfl)
    simpa using this
  · have := h1 .live ⟨[], some (.otherErr 3), true⟩ ⟨.internal, "Error fetching users"⟩ (by rfl)
    simpa using this

/-- C3 counterexample: the UsersManager service's GetUsers, on a storage
failure that is a plain driver error (the repository's own tests use
sql.ErrConnDone here), propagates that error unchanged — its innermost
error has no sentinel kind, so the failure is outside the claimed set. -/
theorem C3_passthrough_counterexample :
    (UmService.GetUsers .live
        ⟨[], some (.wrap "storage.user.psql.GetUsers" (.otherErr 7)), true⟩).err =
      some (.wrap UmService.opGetUsers (.wrap "storage.user.psql.GetUsers" (.otherErr 7))) ∧
    kindOf (GoError.base
      (.wrap UmService.opGetUsers (.wrap "storage.user.psql.GetUsers" (.otherErr 7)))) =
      none := by
  exact ⟨rfl, rfl⟩

/-- Every failing GetUserById of the gateway service carries a sentinel
kind. -/
theorem gwService_getUserById_kind :
    ∀ (ctx : CtxState) (storRes : OpOut User) (e : GoError),
      (GwService.GetUserById ctx storRes).err = some e →
      (kindOf e.base).isSome = true := by
  intro ctx storRes e h
  unfold GwService.GetUserById at h
  cases ctx <;> simp [CtxState.done] at h
  case live =>
    rcases he : storRes.err with _ | e0 <;> rw [he] at h <;> simp at h
    case some =>
      repeat' split at h
      all_goals (simp at h; rw [← h]; rfl)
  case canceledCtx => rw [← h]; rfl
  case deadlineCtx => rw [← h]; rfl

/-- Every failing Insert of the gateway service carries a sentinel
kind. -/
theorem gwService_insert_kind :
    ∀ (ctx : CtxState) (storRes : OpOut User) (e : GoError),
      (GwService.Insert ctx storRes).err = some e →
      (kindOf e.base).isSome = true := by
  intro ctx storRes e h
  unfold GwService.Insert at h
  cases ctx <;> simp [CtxState.done] at h
  case live =>
    rcases he : storRes.err with _ | e0 <;> rw [he] at h <;> simp at h
    case some =>
      repeat' split at h
      all_goals (simp at h; rw [← h]; rfl)
  case canceledCtx => rw [← h]; rfl
  case deadlineCtx => rw [← h]; rfl

/-- Every failing Update of the gateway service carries a sentinel
kind. -/
theorem gwService_update_kind :
    ∀ (ctx : CtxState) (storRes : OpOut User) (e : GoError),
      (GwService.Update ctx storRes).err = some e →
      (kindOf e.base).isSome = true := by
  intro ctx storRes e h
  unfold GwService.Update at h
  cases ctx <;> simp [CtxState.done] at h
  case live =>
    rcases he : storRes.err with _ | e0 <;> rw [he] at h <;> simp at h
    case some =>
      repeat' split at h
      all_goals (simp at h; rw [← h]; rfl)
  case canceledCtx => rw [← h]; rfl
  case deadlineCtx => rw [← h]; rfl

/-- Every failing Delete of the gateway service carries a sentinel
kind. -/
theorem gwService_delete_kind :
    ∀ (ctx : CtxState) (storRes : OpOut User) (e : GoError),
      (GwService.Delete ctx storRes).err = some e →
      (kindOf e.base).isSome = true := by
  intro ctx storRes e h
  unfold GwService.Delete at h
  cases ctx <;> simp [CtxState.done] at h
  case live =>
    rcases he : storRes.err with _ | e0 <;> rw [he] at h <;> simp at h
    case some =>
      repeat' split at h
      all_goals (simp at h; rw [← h]; rfl)
  case canceledCtx => rw [← h]; rfl
  case deadlineCtx => rw [← h]; rfl

/-- C3 amended: the gateway-side layers stay inside the five sentinel
kinds: the helper maps every gRPC status into the gateway sentinel set,
and every failing gateway-service operation carries a kind (GetUsers
provided its storage failure carried one, which every helper-produced
failure does; the other four unconditionally).  The UsersManager
service, by contrast, passes an arbitrary storage failure through
unchanged — outside the set — and it is collapsed to the Internal status
code only at the gRPC server. -/
theorem C3_amended_sentinel_kinds :
    (∀ (op : String) (st : GrpcStatus),
      (kindOf (GrpcErrorHelper op st).base).isSome = true) ∧
    (∀ (ctx : CtxState) (storRes : OpOut (List User)) (e : GoError),
      (GwService.GetUsers ctx storRes).err = some e →
      (∀ e0, storRes.err = some e0 → (kindOf e0.base).isSome = true) →
      (kindOf e.base).isSome = true) ∧
    (∀ (ctx : CtxState) (storRes : OpOut User) (e : GoError),
      (GwService.GetUserById ctx storRes).err = some e →
      (kindOf e.base).isSome = true) ∧
    (∀ (ctx : CtxState) (storRes : OpOut User) (e : GoError),
      (GwService.Insert ctx storRes).err = some e → (kindOf e.base).isSome = true) ∧
    (∀ (ctx : CtxState) (storRes : OpOut User) (e : GoError),
      (GwService.Update ctx storRes).err = some e → (kindOf e.base).isSome = true) ∧
    (∀ (ctx : CtxState) (storRes : OpOut User) (e : GoError),
      (GwService.Delete ctx storRes).err = some e → (kindOf e.base).isSome = true) ∧
    (∀ (v : List User) (c : Bool) (e0 : GoError),
      (UmService.GetUsers .live ⟨v, some e0, c⟩).err =
        some (.wrap UmService.opGetUsers e0) ∧
      kindOf (GoError.base (.wrap UmService.opGetUsers e0)) = kindOf e0.base) ∧
    (∀ (v : List User) (e : GoError) (c : Bool),
      (UmGrpc.GetUsers .live ⟨v, some e, c⟩).res =
        .error ⟨.internal, "Error fetching users"⟩) := by
  refine ⟨?_, ?_, gwService_getUserById_kind, gwService_insert_kind,
    gwService_update_kind, gwService_delete_kind, ?_, ?_⟩
  · intro op st
    cases st with
    | mk code msg => cases code <;> rfl
  · intro ctx storRes e h hk
    unfold GwService.GetUsers at h
    cases ctx <;> simp [CtxState.done] at h
    case live =>
      rcases he : storRes.err with _ | e0 <;> rw [he] at h <;> simp at h
      case some =>
        repeat' split at h
        · simp at h; rw [← h]; rfl
        · simp at h; rw [← h]; rfl
        · simp at h
          rw [← h]
          simpa using hk e0 he
    case canceledCtx => rw [← h]; rfl
    case deadlineCtx => rw [← h]; rfl
  · intro v c e0
    exact ⟨rfl, rfl⟩
  · intro v e c
    rfl

/-- Witness for the amended C3 at concrete inputs: a NotFound status
through the helper, a helper-produced storage failure through the
gateway GetUsers, an Internal storage failure through the gateway
Insert, the pass-through of a driver error in the UsersManager service,
and its collapse at the gRPC server. -/
theorem C3_amended_witness :
    (kindOf (GrpcErrorHelper "op" ⟨.notFound, "m"⟩).base).isSome = true ∧
    (kindOf (GoError.base (.wrap GwService.opGetUsers .gwSvcContextCanceled))).isSome = true ∧
    (kindOf (GoError.base (.wrap GwService.opInsert .gwSvcInternal))).isSome = true ∧
    (UmService.GetUsers .live ⟨[], some (.otherErr 7), true⟩).err =
      some (.wrap UmService.opGetUsers (.otherErr 7)) ∧
    (UmGrpc.GetUsers .live ⟨[], some (.otherErr 7), true⟩).res =
      .error ⟨.internal, "Error fetching users"⟩ := by
  obtain ⟨h1, h2, _, h4, _, _, h7, h8⟩ := C3_amended_sentinel_kinds
  refine ⟨h1 "op" ⟨.notFound, "m"⟩, ?_, ?_, (h7 [] true (.otherErr 7)).1,
    h8 [] (.otherErr 7) true⟩
  · exact h2 .live ⟨[], some (.wrap "x" .gwStorContextCanceled), true⟩
      (.wrap GwService.opGetUsers .gwSvcContextCanceled) (by rfl)
      (by intro e0 he0; simp at he0; rw [← he0]; rfl)
  · exact h4 .live ⟨zeroUser, some (.wrap "x" .gwStorInternal), true⟩
      (.wrap GwService.opInsert .gwSvcInternal) (by rfl)

/-- C5: an operation entered with an already-done inbound context, at
every layer, returns its cancellation response (a wrapped context error,
the DeadlineExceeded status, or HTTP 408) and never invokes the layer
below it. -/
theorem C5_precancelled_no_downstream_call :
    (∀ (ctx : CtxState) (q : Except GoError (List User)), ctx.done = true →
      Psql.GetUsersWith ctx q = ⟨[], some (.wrap Psql.opGetUsers ctx.err), false⟩) ∧
    (∀ (ctx : CtxState) (scan : Except GoError User), ctx.done = true →
      Psql.GetUserByIdWith ctx scan =
        ⟨zeroUser, some (.wrap Psql.opGetUserById ctx.err), false⟩) ∧
    (∀ (ctx : CtxState) (e : Option GoError) (u : User), ctx.done = true →
      Psql.InsertWith ctx e u = ⟨zeroUser, some (.wrap Psql.opInsert ctx.err), false⟩) ∧
    (∀ (ctx : CtxState) (r : Except GoError Nat) (u : User), ctx.done = true →
      Psql.UpdateWith ctx r u = ⟨zeroUser, some (.wrap Psql.opUpdate ctx.err), false⟩) ∧
    (∀ (ctx : CtxState) (g : OpOut User) (e : Option GoError), ctx.done = true →
      Psql.DeleteWith ctx g e = ⟨zeroUser, some (.wrap Psql.opDelete ctx.err), false⟩) ∧
    (∀ (ctx : CtxState) (s : OpOut (List User)), ctx.done = true →
      UmService.GetUsers ctx s = ⟨[], some (.wrap UmService.opGetUsers ctx.err), false⟩) ∧
    (∀ (ctx : CtxState) (s : OpOut User), ctx.done = true →
      UmService.GetUserById ctx s = ⟨zeroUser, some (.wrap UmService.opGetUserById ctx.err), false⟩) ∧
    (∀ (ctx : CtxState) (s : OpOut User), ctx.done = true →
      UmService.Insert ctx s = ⟨zeroUser, some (.wrap UmService.opInsert ctx.err), false⟩) ∧
    (∀ (ctx : CtxState) (s : OpOut User), ctx.done = true →
      UmService.Update ctx s = ⟨zeroUser, some (.wrap UmService.opUpdate ctx.err), false⟩) ∧
    (∀ (ctx : CtxState) (s : OpOut User), ctx.done = true →
      UmService.Delete ctx s = ⟨zeroUser, some (.wrap UmService.opDelete ctx.err), false⟩) ∧
    (∀ (ctx : CtxState) (s : OpOut (List User)), ctx.done = true →
      UmGrpc.GetUsers ctx s = ⟨.error ⟨.deadlineExceeded, "context is over"⟩, false⟩) ∧
    (∀ (ctx : CtxState) (idStr : String) (s : OpOut User), ctx.done = true →
      UmGrpc.GetUserById ctx idStr s =
        ⟨.error ⟨.deadlineExceeded, "context is over"⟩, false⟩) ∧
    (∀ (ctx : CtxState) (p : ProtoUser) (s : OpOut User), ctx.done = true →
      UmGrpc.Insert ctx p s = ⟨.error ⟨.deadlineExceeded, "context is over"⟩, false⟩) ∧
    (∀ (ctx : CtxState) (idStr : String) (p : ProtoUser) (s : OpOut User),
      ctx.done = true →
      UmGrpc.Update ctx idStr p s = ⟨.error ⟨.deadlineExceeded, "context is over"⟩, false⟩) ∧
    (∀ (ctx : CtxState) (idStr : String) (s : OpOut User), ctx.done = true →
      UmGrpc.Delete ctx idStr s = ⟨.error ⟨.deadlineExceeded, "context is over"⟩, false⟩) ∧
    (∀ (ctx : CtxState) (r : Except GrpcStatus (List ProtoUser)), ctx.done = true →
      GwStorage.GetUsers ctx r = ⟨[], some (.wrap GwStorage.opGetUsers ctx.err), false⟩) ∧
    (∀ (ctx : CtxState) (r : Except GrpcStatus ProtoUser), ctx.done = true →
      GwStorage.GetUserById ctx r = ⟨zeroUser, some (.wrap GwStorage.opGetUserById ctx.err), false⟩) ∧
    (∀ (ctx : CtxState) (r : Except GrpcStatus ProtoUser), ctx.done = true →
      GwStorage.Insert ctx r = ⟨zeroUser, some (.wrap GwStorage.opInsert ctx.err), false⟩) ∧
    (∀ (ctx : CtxState) (r : Except GrpcStatus ProtoUser), ctx.done = true →
      GwStorage.Update ctx r = ⟨zeroUser, some (.wrap GwStorage.opUpdate ctx.err), false⟩) ∧
    (∀ (ctx : CtxState) (r : Except GrpcStatus ProtoUser), ctx.done = true →
      GwStorage.Delete ctx r = ⟨zeroUser, some (.wrap GwStorage.opDelete ctx.err), false⟩) ∧
    (∀ (ctx : CtxState) (s : OpOut (List User)), ctx.done = true →
      GwService.GetUsers ctx s = ⟨[], some (.wrap GwService.opGetUsers ctx.err), false⟩) ∧
    (∀ (ctx : CtxState) (s : OpOut User), ctx.done = true →
      GwService.GetUserById ctx s = ⟨zeroUser, some (.wrap GwService.opGetUserById ctx.err), false⟩) ∧
    (∀ (ctx : CtxState) (s : OpOut User), ctx.done = true →
      GwService.Insert ctx s = ⟨zeroUser, some (.wrap GwService.opInsert ctx.err), false⟩) ∧
    (∀ (ctx : CtxState) (s : OpOut User), ctx.done = true →
      GwService.Update ctx s = ⟨zeroUser, some (.wrap GwService.opUpdate ctx.err), false⟩) ∧
    (∀ (ctx : CtxState) (s : OpOut User), ctx.done = true →
      GwService.Delete ctx s = ⟨zeroUser, some (.wrap GwService.opDelete ctx.err), false⟩) ∧
    (∀ (ctx : CtxState) (s : OpOut (List User)), ctx.done = true →
      GwHandler.GetUsersHandler ctx s = ⟨408, false⟩) ∧
    (∀ (ctx : CtxState) (idStr : String) (s : OpOut User), ctx.done = true →
      GwHandler.GetUserByIdHandler ctx idStr s = ⟨408, false⟩) ∧
    (∀ (ctx : CtxState) (body : Body) (s : OpOut User), ctx.done = true →
      GwHandler.InsertHandler ctx body s = ⟨408, false⟩) ∧
    (∀ (ctx : CtxState) (idStr : String) (body : Body) (s : OpOut User),
      ctx.done = true →
      GwHandler.UpdateHandler ctx idStr body s = ⟨408, false⟩) ∧
    (∀ (ctx : CtxState) (idStr : String) (s : OpOut User), ctx.done = true →
      GwHandler.DeleteHandler ctx idStr s = ⟨408, false⟩) := by
  refine ⟨?_, ?_, ?_, ?_, ?_, ?_, ?_, ?_, ?_, ?_, ?_, ?_, ?_, ?_, ?_, ?_, ?_, ?_, ?_, ?_, ?_, ?_, ?_, ?_, ?_, ?_, ?_, ?_, ?_, ?_⟩ <;>
    (intros; rename_i hdone; simp_all [Psql.GetUsersWith, Psql.GetUserByIdWith, Psql.InsertWith, Psql.UpdateWith,
      Psql.DeleteWith, UmService.GetUsers, UmService.GetUserById, UmService.Insert,
      UmService.Update, UmService.Delete, UmGrpc.GetUsers, UmGrpc.GetUserById,
      UmGrpc.Insert, UmGrpc.Update, UmGrpc.Delete, GwStorage.GetUsers,
      GwStorage.GetUserById, GwStorage.Insert, GwStorage.Update, GwStorage.Delete,
      GwService.GetUsers, GwService.GetUserById, GwService.Insert, GwService.Update,
      GwService.Delete, GwHandler.GetUsersHandler, GwHandler.GetUserByIdHandler,
      GwHandler.InsertHandler, GwHandler.UpdateHandler, GwHandler.DeleteHandler])

/-- Witness for C5 at a concrete cancelled context for every operation
of every layer. -/
theorem C5_precancelled_witness :
    Psql.GetUsersWith .canceledCtx (.ok []) =
      ⟨[], some (.wrap Psql.opGetUsers .ctxCanceled), false⟩ ∧
    Psql.GetUserByIdWith .canceledCtx (.ok sampleUser) =
      ⟨zeroUser, some (.wrap Psql.opGetUserById .ctxCanceled), false⟩ ∧
    Psql.InsertWith .canceledCtx none sampleUser =
      ⟨zeroUser, some (.wrap Psql.opInsert .ctxCanceled), false⟩ ∧
    Psql.UpdateWith .canceledCtx (.ok 1) sampleUser =
      ⟨zeroUser, some (.wrap Psql.opUpdate .ctxCanceled), false⟩ ∧
    Psql.DeleteWith .canceledCtx ⟨sampleUser, none, true⟩ none =
      ⟨zeroUser, some (.wrap Psql.opDelete .ctxCanceled), false⟩ ∧
    UmService.GetUsers .canceledCtx ⟨[], none, true⟩ =
      ⟨[], some (.wrap UmService.opGetUsers .ctxCanceled), false⟩ ∧
    UmService.GetUserById .canceledCtx ⟨sampleUser, none, true⟩ =
      ⟨zeroUser, some (.wrap UmService.opGetUserById .ctxCanceled), false⟩ ∧
    UmService.Insert .canceledCtx ⟨sampleUser, none, true⟩ =
      ⟨zeroUser, some (.wrap UmService.opInsert .ctxCanceled), false⟩ ∧
    UmService.Update .canceledCtx ⟨sampleUser, none, true⟩ =
      ⟨zeroUser, some (.wrap UmService.opUpdate .ctxCanceled), false⟩ ∧
    UmService.Delete .canceledCtx ⟨sampleUser, none, true⟩ =
      ⟨zeroUser, some (.wrap UmService.opDelete .ctxCanceled), false⟩ ∧
    UmGrpc.GetUsers .canceledCtx ⟨[], none, true⟩ =
      ⟨.error ⟨.deadlineExceeded, "context is over"⟩, false⟩ ∧
    UmGrpc.GetUserById .canceledCtx "x" ⟨sampleUser, none, true⟩ =
      ⟨.error ⟨.deadlineExceeded, "context is over"⟩, false⟩ ∧
    UmGrpc.Insert .canceledCtx (UsrToProtoUsr sampleUser) ⟨sampleUser, none, true⟩ =
      ⟨.error ⟨.deadlineExceeded, "context is over"⟩, false⟩ ∧
    UmGrpc.Update .canceledCtx "x" (UsrToProtoUsr sampleUser) ⟨sampleUser, none, true⟩ =
      ⟨.error ⟨.deadlineExceeded, "context is over"⟩, false⟩ ∧
    UmGrpc.Delete .canceledCtx "x" ⟨sampleUser, none, true⟩ =
      ⟨.error ⟨.deadlineExceeded, "context is over"⟩, false⟩ ∧
    GwStorage.GetUsers .canceledCtx (.ok []) =
      ⟨[], some (.wrap GwStorage.opGetUsers .ctxCanceled), false⟩ ∧
    GwStorage.GetUserById .canceledCtx (.ok (UsrToProtoUsr sampleUser)) =
      ⟨zeroUser, some (.wrap GwStorage.opGetUserById .ctxCanceled), false⟩ ∧
    GwStorage.Insert .canceledCtx (.ok (UsrToProtoUsr sampleUser)) =
      ⟨zeroUser, some (.wrap GwStorage.opInsert .ctxCanceled), false⟩ ∧
    GwStorage.Update .canceledCtx (.ok (UsrToProtoUsr sampleUser)) =
      ⟨zeroUser, some (.wrap GwStorage.opUpdate .ctxCanceled), false⟩ ∧
    GwStorage.Delete .canceledCtx (.ok (UsrToProtoUsr sampleUser)) =
      ⟨zeroUser, some (.wrap GwStorage.opDelete .ctxCanceled), false⟩ ∧
    GwService.GetUsers .canceledCtx ⟨[], none, true⟩ =
      ⟨[], some (.wrap GwService.opGetUsers .ctxCanceled), false⟩ ∧
    GwService.GetUserById .canceledCtx ⟨sampleUser, none, true⟩ =
      ⟨zeroUser, some (.wrap GwService.opGetUserById .ctxCanceled), false⟩ ∧
    GwService.Insert .canceledCtx ⟨sampleUser, none, true⟩ =
      ⟨zeroUser, some (.wrap GwService.opInsert .ctxCanceled), false⟩ ∧
    GwService.Update .canceledCtx ⟨sampleUser, none, true⟩ =
      ⟨zeroUser, some (.wrap GwService.opUpdate .ctxCanceled), false⟩ ∧
    GwService.Delete .canceledCtx ⟨sampleUser, none, true⟩ =
      ⟨zeroUser, some (.wrap GwService.opDelete .ctxCanceled), false⟩ ∧
    GwHandler.GetUsersHandler .canceledCtx ⟨[], none, true⟩ = ⟨408, false⟩ ∧
    GwHandler.GetUserByIdHandler .canceledCtx "x" ⟨sampleUser, none, true⟩ =
      ⟨408, false⟩ ∧
    GwHandler.InsertHandler .canceledCtx (.decoded sampleUser) ⟨sampleUser, none, true⟩ =
      ⟨408, false⟩ ∧
    GwHandler.UpdateHandler .canceledCtx "x" (.decoded sampleUser)
      ⟨sampleUser, none, true⟩ = ⟨408, false⟩ ∧
    GwHandler.DeleteHandler .canceledCtx "x" ⟨sampleUser, none, true⟩ = ⟨408, false⟩ := by
  obtain ⟨h1, h2, h3, h4, h5, h6, h7, h8, h9, h10, h11, h12, h13, h14, h15, h16, h17, h18, h19, h20, h21, h22, h23, h24, h25, h26, h27, h28, h29, h30⟩ := C5_precancelled_no_downstream_call
  exact ⟨h1 _ _ rfl,
    h2 _ _ rfl,
    h3 _ _ _ rfl,
    h4 _ _ _ rfl,
    h5 _ _ _ rfl,
    h6 _ _ rfl,
    h7 _ _ rfl,
    h8 _ _ rfl,
    h9 _ _ rfl,
    h10 _ _ rfl,
    h11 _ _ rfl,
    h12 _ _ _ rfl,
    h13 _ _ _ rfl,
    h14 _ _ _ _ rfl,
    h15 _ _ _ rfl,
    h16 _ _ rfl,
    h17 _ _ rfl,
    h18 _ _ rfl,
    h19 _ _ rfl,
    h20 _ _ rfl,
    h21 _ _ rfl,
    h22 _ _ rfl,
    h23 _ _ rfl,
    h24 _ _ rfl,
    h25 _ _ rfl,
    h26 _ _ rfl,
    h27 _ _ _ rfl,
    h28 _ _ _ rfl,
    h29 _ _ _ _ rfl,
    h30 _ _ _ rfl⟩

/-- C9: every value-returning operation of every layer either returns
its zero result (the zero User or the empty list) or returns a nil
error: a caller never receives a partial or stale User alongside an
error. -/
theorem C9_error_implies_zero_value :
    (∀ (ctx : CtxState) (q : Except GoError (List User)),
      (Psql.GetUsersWith ctx q).val = [] ∨ (Psql.GetUsersWith ctx q).err = none) ∧
    (∀ (ctx : CtxState) (scan : Except GoError User),
      (Psql.GetUserByIdWith ctx scan).val = zeroUser ∨
        (Psql.GetUserByIdWith ctx scan).err = none) ∧
    (∀ (ctx : CtxState) (e : Option GoError) (u : User),
      (Psql.InsertWith ctx e u).val = zeroUser ∨ (Psql.InsertWith ctx e u).err = none) ∧
    (∀ (ctx : CtxState) (r : Except GoError Nat) (u : User),
      (Psql.UpdateWith ctx r u).val = zeroUser ∨ (Psql.UpdateWith ctx r u).err = none) ∧
    (∀ (ctx : CtxState) (g : OpOut User) (e : Option GoError),
      (Psql.DeleteWith ctx g e).val = zeroUser ∨ (Psql.DeleteWith ctx g e).err = none) ∧
    (∀ (ctx : CtxState) (s : OpOut (List User)),
      (UmService.GetUsers ctx s).val = [] ∨ (UmService.GetUsers ctx s).err = none) ∧
    (∀ (ctx : CtxState) (s : OpOut User),
      (UmService.GetUserById ctx s).val = zeroUser ∨ (UmService.GetUserById ctx s).err = none) ∧
    (∀ (ctx : CtxState) (s : OpOut User),
      (UmService.Insert ctx s).val = zeroUser ∨ (UmService.Insert ctx s).err = none) ∧
    (∀ (ctx : CtxState) (s : OpOut User),
      (UmService.Update ctx s).val = zeroUser ∨ (UmService.Update ctx s).err = none) ∧
    (∀ (ctx : CtxState) (s : OpOut User),
      (UmService.Delete ctx s).val = zeroUser ∨ (UmService.Delete ctx s).err = none) ∧
    (∀ (ctx : CtxState) (r : Except GrpcStatus (List ProtoUser)),
      (GwStorage.GetUsers ctx r).val = [] ∨ (GwStorage.GetUsers ctx r).err = none) ∧
    (∀ (ctx : CtxState) (r : Except GrpcStatus ProtoUser),
      (GwStorage.GetUserById ctx r).val = zeroUser ∨ (GwStorage.GetUserById ctx r).err = none) ∧
    (∀ (ctx : CtxState) (r : Except GrpcStatus ProtoUser),
      (GwStorage.Insert ctx r).val = zeroUser ∨ (GwStorage.Insert ctx r).err = none) ∧
    (∀ (ctx : CtxState) (r : Except GrpcStatus ProtoUser),
      (GwStorage.Update ctx r).val = zeroUser ∨ (GwStorage.Update ctx r).err = none) ∧
    (∀ (ctx : CtxState) (r : Except GrpcStatus ProtoUser),
      (GwStorage.Delete ctx r).val = zeroUser ∨ (GwStorage.Delete ctx r).err = none) ∧
    (∀ (ctx : CtxState) (s : OpOut (List User)),
      (GwService.GetUsers ctx s).val = [] ∨ (GwService.GetUsers ctx s).err = none) ∧
    (∀ (ctx : CtxState) (s : OpOut User),
      (GwService.GetUserById ctx s).val = zeroUser ∨ (GwService.GetUserById ctx s).err = none) ∧
    (∀ (ctx : CtxState) (s : OpOut User),
      (GwService.Insert ctx s).val = zeroUser ∨ (GwService.Insert ctx s).err = none) ∧
    (∀ (ctx : CtxState) (s : OpOut User),
      (GwService.Update ctx s).val = zeroUser ∨ (GwService.Update ctx s).err = none) ∧
    (∀ (ctx : CtxState) (s : OpOut User),
      (GwService.Delete ctx s).val = zeroUser ∨ (GwService.Delete ctx s).err = none) := by
  refine ⟨?_, ?_, ?_, ?_, ?_, ?_, ?_, ?_, ?_, ?_, ?_, ?_, ?_, ?_, ?_, ?_, ?_, ?_, ?_, ?_⟩ <;>
    first
    | (intro ctx x y;
       cases ctx <;> simp [Psql.GetUsersWith, Psql.GetUserByIdWith, Psql.InsertWith, Psql.UpdateWith,
          Psql.DeleteWith, UmService.GetUsers, UmService.GetUserById, UmService.Insert,
          UmService.Update, UmService.Delete, GwStorage.GetUsers, GwStorage.GetUserById,
          GwStorage.Insert, GwStorage.Update, GwStorage.Delete, GwService.GetUsers,
          GwService.GetUserById, GwService.Insert, GwService.Update, GwService.Delete,
          CtxState.done] <;> (repeat' split) <;> simp_all)
    | (intro ctx x;
       cases ctx <;> simp [Psql.GetUsersWith, Psql.GetUserByIdWith, Psql.InsertWith, Psql.UpdateWith,
          Psql.DeleteWith, UmService.GetUsers, UmService.GetUserById, UmService.Insert,
          UmService.Update, UmService.Delete, GwStorage.GetUsers, GwStorage.GetUserById,
          GwStorage.Insert, GwStorage.Update, GwStorage.Delete, GwService.GetUsers,
          GwService.GetUserById, GwService.Insert, GwService.Update, GwService.Delete,
          CtxState.done] <;> (repeat' split) <;> simp_all)
